import Mathlib

/-!
Verification of the system-report generator (`SystemReport` in `код.py`).

The Python program is shallowly embedded below.  Ambient OS state queried
through `psutil`/`socket`/`platform` is modelled by explicit environment
records (`PlatformEnv`, `CpuEnv`, `DiskEnv`, ...); a library call that can
raise an exception is modelled by an `Option`/`Except` result.  Python
`float` values produced by `psutil` are modelled as exact rationals
(`Rat`); `float` division is modelled as exact rational division and the
`"%.1f"`/`"%.0f"` format specifiers as round-half-to-even on the exact
value.  Local wall-clock time (`datetime.now`, `fromtimestamp`) is
modelled as UTC seconds-since-epoch.
-/

/-- Round-half-to-even of the exact ratio `n / d` (`d` positive) to an
integer, the rounding used by Python `format(x, ".1f")`-style
formatting. -/
def rheND (n d : Int) : Int :=
  let f : Int := Int.fdiv n d
  let r : Int := n - f * d
  if 2 * r < d then f
  else if d < 2 * r then f + 1
  else if f % 2 = 0 then f else f + 1

/-- Python `f"{n/d:.1f}"` on the exact ratio `n / d`: one fractional
digit, round half to even. -/
def fmt1ND (n d : Int) : String :=
  let t : Int := rheND (n * 10) d
  let sign := if t < 0 then "-" else ""
  let a := t.natAbs
  sign ++ toString (a / 10) ++ "." ++ toString (a % 10)

/-- Python `f"{q:.1f}"` on a float given as an exact rational. -/
def fmt1R (q : Rat) : String :=
  fmt1ND q.num (q.den : Int)

/-- Python `f"{q:.0f}"`: round half to even to an integer. -/
def fmt0R (q : Rat) : String :=
  toString (rheND q.num (q.den : Int))

/-- Python `f"{b / (1024**3):.1f} GB"` on a byte count `b`. -/
def fmtGB (b : Nat) : String :=
  fmt1ND (b : Int) (1024 ^ 3) ++ " GB"

/-- Python `f"{b / (1024**2):.1f} MB"` on a byte count `b`. -/
def fmtMB (b : Nat) : String :=
  fmt1ND (b : Int) (1024 ^ 2) ++ " MB"

/-- Exact decimal expansion of the fractional part `r/d` (fuel-bounded;
every value produced by the program has a finite expansion). -/
def fracDigits : Nat → Nat → Nat → String
  | 0, _, _ => ""
  | fuel + 1, r, d =>
    if r = 0 then ""
    else toString (r * 10 / d) ++ fracDigits fuel (r * 10 % d) d

/-- Python `repr`/`str` of a float, on floats whose exact value is a
finite decimal: e.g. `37.2` ↦ `"37.2"`, `0` ↦ `"0.0"`. -/
def floatRepr (q : Rat) : String :=
  let sign := if q < 0 then "-" else ""
  let n := q.num.natAbs
  let d := q.den
  let frac := fracDigits 17 (n % d) d
  sign ++ toString (n / d) ++ "." ++ (if frac = "" then "0" else frac)

/-- Left-pad with spaces to width `w` (Python `f"{x:6}"` on numbers). -/
def padLeft (w : Nat) (s : String) : String :=
  String.mk (List.replicate (w - s.length) ' ') ++ s

/-- Right-pad with spaces to width `w` (Python `f"{s:20}"` on strings). -/
def padRight (w : Nat) (s : String) : String :=
  s ++ String.mk (List.replicate (w - s.length) ' ')

/-- Two-digit zero-padded decimal (strftime `%H`/`%M`/`%S`/`%m`/`%d`). -/
def pad2 (n : Nat) : String :=
  if n < 10 then "0" ++ toString n else toString n

/-- Civil date from days since 1970-01-01 (proleptic Gregorian). -/
def civilFromDays (z0 : Nat) : Nat × Nat × Nat :=
  let z := z0 + 719468
  let era := z / 146097
  let doe := z % 146097
  let yoe := (doe - doe / 1460 + doe / 36524 - doe / 146096) / 365
  let y := yoe + era * 400
  let doy := doe - (365 * yoe + yoe / 4 - yoe / 100)
  let mp := (5 * doy + 2) / 153
  let d := doy - (153 * mp + 2) / 5 + 1
  if mp < 10 then (y, mp + 3, d) else (y + 1, mp - 9, d)

/-- strftime `"%Y-%m-%d %H:%M:%S"` of epoch seconds (local time modelled
as UTC). -/
def ymdhmsOf (t : Nat) : String :=
  let days := t / 86400
  let secs := t % 86400
  let c := civilFromDays days
  toString c.1 ++ "-" ++ pad2 c.2.1 ++ "-" ++ pad2 c.2.2 ++ " " ++
    pad2 (secs / 3600) ++ ":" ++ pad2 (secs % 3600 / 60) ++ ":" ++ pad2 (secs % 60)

/-- strftime `"%H:%M:%S"` of epoch seconds (local time modelled as UTC). -/
def hmsOf (t : Nat) : String :=
  let secs := t % 86400
  pad2 (secs / 3600) ++ ":" ++ pad2 (secs % 3600 / 60) ++ ":" ++ pad2 (secs % 60)

/-- A Python value as stored in the `self.info` dictionary: the JSON-ish
universe that `json.dumps` receives.  `other s` stands for a non-JSON
object whose `str()` form is `s` (the `default=str` path). -/
inductive Val where
  | nullv
  | str (s : String)
  | int (n : Int)
  | float (q : Rat)
  | list (xs : List Val)
  | dict (kvs : List (String × Val))
  | other (s : String)
deriving Repr

/-- One hex digit, lowercase, as produced by Python's `\uXXXX` escapes. -/
def hexDigit (n : Nat) : Char :=
  match n with
  | 0 => '0' | 1 => '1' | 2 => '2' | 3 => '3' | 4 => '4'
  | 5 => '5' | 6 => '6' | 7 => '7' | 8 => '8' | 9 => '9'
  | 10 => 'a' | 11 => 'b' | 12 => 'c' | 13 => 'd' | 14 => 'e' | 15 => 'f'
  | _ => '0'

/-- Four lowercase hex digits. -/
def hex4 (n : Nat) : String :=
  String.mk [hexDigit (n / 4096 % 16), hexDigit (n / 256 % 16),
             hexDigit (n / 16 % 16), hexDigit (n % 16)]

/-- Escape of a single character in a JSON string under `json.dumps`'s
default `ensure_ascii=True`: printable ASCII is kept, everything else is
escaped (`\uXXXX`, surrogate pairs beyond the BMP). -/
def escChar (c : Char) : String :=
  if c = '"' then "\\\""
  else if c = '\\' then "\\\\"
  else if c = '\n' then "\\n"
  else if c = '\r' then "\\r"
  else if c = '\t' then "\\t"
  else if c.toNat = 8 then "\\b"
  else if c.toNat = 12 then "\\f"
  else if 0x20 ≤ c.toNat ∧ c.toNat ≤ 0x7e then String.mk [c]
  else if c.toNat < 0x10000 then "\\u" ++ hex4 c.toNat
  else
    "\\u" ++ hex4 (0xd800 + (c.toNat - 0x10000) / 0x400) ++
    "\\u" ++ hex4 (0xdc00 + (c.toNat - 0x10000) % 0x400)

/-- The concatenated escapes of a character list. -/
def escList : List Char → String
  | [] => ""
  | c :: cs => escChar c ++ escList cs

/-- A JSON string literal under `ensure_ascii=True`. -/
def encStr (s : String) : String :=
  "\"" ++ escList s.data ++ "\""

/-- `indent=2` indentation for nesting depth `d`. -/
def indentStr (d : Nat) : String :=
  String.mk (List.replicate (2 * d) ' ')

mutual

/-- `json.dumps(v, indent=2, default=str)` at nesting depth `d`. -/
def dumps : Val → Nat → String
  | .nullv, _ => "null"
  | .str s, _ => encStr s
  | .int n, _ => toString n
  | .float q, _ => floatRepr q
  | .other s, _ => encStr s
  | .list [], _ => "[]"
  | .list (x :: xs), d =>
    "[\n" ++ dumpsItems (x :: xs) (d + 1) ++ "\n" ++ indentStr d ++ "]"
  | .dict [], _ => "\x7b\x7d"
  | .dict (kv :: kvs), d =>
    "\x7b\n" ++ dumpsEntries (kv :: kvs) (d + 1) ++ "\n" ++ indentStr d ++ "\x7d"

/-- The comma-separated, indented items of a JSON array. -/
def dumpsItems : List Val → Nat → String
  | [], _ => ""
  | [x], d => indentStr d ++ dumps x d
  | x :: y :: xs, d => indentStr d ++ dumps x d ++ ",\n" ++ dumpsItems (y :: xs) d

/-- The comma-separated, indented entries of a JSON object. -/
def dumpsEntries : List (String × Val) → Nat → String
  | [], _ => ""
  | [(k, v)], d => indentStr d ++ encStr k ++ ": " ++ dumps v d
  | (k, v) :: kv :: kvs, d =>
    indentStr d ++ encStr k ++ ": " ++ dumps v d ++ ",\n" ++ dumpsEntries (kv :: kvs) d

end

/-! ## Environments: the ambient OS state queried by the collectors -/

/-- The `platform`/`socket` state seen by `_platform`.  A
`gethostbyname` result of `none` models `socket.gaierror` (resolution
failure). -/
structure PlatformEnv where
  system : String
  release : String
  version : String
  hostname : String
  gethostbyname : String → Option String

/-- An exception escaping a collector (`socket.gaierror` from
`socket.gethostbyname`). -/
inductive PyErr where
  | gaierror
deriving DecidableEq, Repr

/-- `psutil.cpu_freq()`/`cpu_count`/`cpu_percent` results.  `freq = none`
models `cpu_freq()` returning a falsy value. -/
structure CpuEnv where
  physical_cores : Int
  logical_cores : Int
  freq : Option Rat
  usage : Rat
  per_cpu : List Rat

/-- `psutil.virtual_memory()` (the fields the program reads). -/
structure VMem where
  total : Nat
  used : Nat
  percent : Rat
deriving DecidableEq, Repr

/-- `psutil.swap_memory()` (the fields the program reads). -/
structure Swap where
  used : Nat
  total : Nat
deriving DecidableEq, Repr

/-- `psutil.disk_usage(mountpoint)` result. -/
structure DiskUsage where
  total : Nat
  used : Nat
  free : Nat
  percent : Rat
deriving Inhabited

/-- One entry of `psutil.disk_io_counters(perdisk=True)`. -/
structure DiskIoCounters where
  read_bytes : Nat
  write_bytes : Nat

/-- One `psutil.disk_partitions()` entry together with the outcome of
`psutil.disk_usage` on its mountpoint: `usage = none` models the
`PermissionError`/`OSError` raised mid-query. -/
structure Partition where
  device : String
  mountpoint : String
  fstype : String
  usage : Option DiskUsage

/-- The disk-related OS state.  `ioTable = none` models
`psutil.disk_io_counters(perdisk=True)` itself raising (swallowed by the
bare `except`). -/
structure DiskEnv where
  partitions : List Partition
  ioTable : Option (List (String × DiskIoCounters))

/-- `psutil.net_io_counters()` aggregate counters. -/
structure NetCounters where
  bytes_sent : Nat
  bytes_recv : Nat
  packets_sent : Nat
  packets_recv : Nat

/-- Address family tags distinguished by `_network`. -/
inductive AddrFamily where
  | inet
  | inet6
  | link
  | otherFam
deriving DecidableEq, Repr

/-- One address of `psutil.net_if_addrs()[iface]`. -/
structure IfAddr where
  family : AddrFamily
  address : String
  netmask : Option String

/-- One `psutil.net_if_stats()[iface]` record. -/
structure IfStats where
  isup : Bool
  speed : Int
  mtu : Int

/-- The network-related OS state. -/
structure NetEnv where
  io : NetCounters
  if_addrs : List (String × List IfAddr)
  if_stats : List (String × IfStats)

/-- One process yielded by
`psutil.process_iter(['pid','name','cpu_percent','memory_percent'])`,
together with the outcome of the detail read
`psutil.Process(pid).memory_info().rss`: `rss = none` models
`psutil.NoSuchProcess`/`psutil.AccessDenied` between enumeration and
detail-read. -/
structure ProcEnum where
  pid : Int
  name : String
  cpu_percent : Rat
  memory_percent : Rat
  rss : Option Nat

/-- One `psutil.users()` entry. -/
structure UserSess where
  name : String
  host : String
  started : Nat

/-- The whole ambient OS state at one `collect()` invocation.  `now` is
the wall clock at that invocation; the program never reads it inside
`collect` (its timestamp was taken in `__init__`).  `sensors = none`
models `psutil.sensors_temperatures` being absent on the platform
(`AttributeError`); `some temps` maps each chip name to the `current`
readings of its entries, in enumeration order. -/
structure Env where
  now : Nat
  platform : PlatformEnv
  cpu : CpuEnv
  vmem : VMem
  swap : Swap
  disks : DiskEnv
  net : NetEnv
  procs : List ProcEnum
  users : List UserSess
  boot_time : Nat
  sensors : Option (List (String × List Rat))

/-! ## The canonical in-memory model (`self.info`), collector by
collector -/

/-- The `_platform` sub-record (when `gethostbyname` succeeds). -/
structure PlatformInfo where
  system : String
  release : String
  version : String
  host : String
  ip : String
deriving DecidableEq, Repr

/-- `SystemReport._platform`: no try/except — a resolution failure in
`socket.gethostbyname(socket.gethostname())` propagates as an
exception. -/
def platformOf (e : PlatformEnv) : Except PyErr PlatformInfo :=
  match e.gethostbyname e.hostname with
  | some ip =>
    .ok { system := e.system, release := e.release, version := e.version,
          host := e.hostname, ip := ip }
  | none => .error .gaierror

/-- The `_cpu` sub-record. -/
structure CpuInfo where
  physical_cores : Int
  logical_cores : Int
  freq : String
  usage : Rat
  per_cpu : List Rat
deriving DecidableEq, Repr

/-- `SystemReport._cpu`. -/
def cpuOf (e : CpuEnv) : CpuInfo :=
  { physical_cores := e.physical_cores, logical_cores := e.logical_cores,
    freq := match e.freq with
            | some f => fmt0R f ++ " MHz"
            | none => "N/A",
    usage := e.usage, per_cpu := e.per_cpu }

/-- The `_memory` sub-record: RAM and swap sizes are already formatted
one-decimal strings; only the percentage stays numeric. -/
structure MemoryInfo where
  total_ram : String
  used_ram : String
  ram_percent : Rat
  swap : String
deriving DecidableEq, Repr

/-- `SystemReport._memory`. -/
def memoryOf (v : VMem) (s : Swap) : MemoryInfo :=
  { total_ram := fmtGB v.total,
    used_ram := fmtGB v.used,
    ram_percent := v.percent,
    swap := fmt1ND (s.used : Int) (1024 ^ 3) ++ "/" ++
            fmt1ND (s.total : Int) (1024 ^ 3) ++ " GB" }

/-- The key used to look up per-disk I/O counters:
`part.device.replace("\\", "").replace("/", "")`. -/
def stripSlashes (s : String) : String :=
  (s.replace "\\" "").replace "/" ""

/-- One entry of the `disks` list.  `io = some (rb, wb)` means the
optional `read_bytes`/`write_bytes` keys are present (they are always
added together). -/
structure DiskEntry where
  device : String
  mountpoint : String
  fstype : String
  total : String
  used : String
  free : String
  percent : Rat
  io : Option (String × String)
deriving DecidableEq, Repr

/-- The dictionary built for one partition whose usage query succeeded. -/
def diskEntryOf (tbl : Option (List (String × DiskIoCounters))) (p : Partition)
    (u : DiskUsage) : DiskEntry :=
  { device := p.device, mountpoint := p.mountpoint, fstype := p.fstype,
    total := fmtGB u.total, used := fmtGB u.used, free := fmtGB u.free,
    percent := u.percent,
    io := (tbl.bind fun t => t.lookup (stripSlashes p.device)).map
            fun c => (fmtMB c.read_bytes, fmtMB c.write_bytes) }

/-- `SystemReport._disks`: partitions whose usage query raised are
skipped (`continue`); everything else yields exactly one entry. -/
def disksOf (env : DiskEnv) : List DiskEntry :=
  env.partitions.filterMap fun p => p.usage.map (diskEntryOf env.ioTable p)

/-- The `stats` sub-dictionary of an interface (present iff the
interface occurs in `net_if_stats`). -/
structure StatsInfo where
  is_up : String
  speed : String
  mtu : Int
deriving DecidableEq, Repr

/-- One value of the `interfaces` mapping. -/
structure IfaceInfo where
  ip_addresses : List String
  mac : Option String
  stats : Option StatsInfo
deriving DecidableEq, Repr

/-- Python `str()` of an optional string (`str(None) = "None"`),
as interpolated by the f-string for a missing netmask. -/
def pyOptStr : Option String → String
  | some s => s
  | none => "None"

/-- One step of the address loop in `_network`: IPv4/IPv6 entries are
appended to `ip_addresses`, an `AF_LINK` entry overwrites `mac`. -/
def addrStep (acc : List String × Option String) (a : IfAddr) :
    List String × Option String :=
  match a.family with
  | .inet => (acc.1 ++ ["IPv4: " ++ a.address ++ "/" ++ pyOptStr a.netmask], acc.2)
  | .inet6 => (acc.1 ++ ["IPv6: " ++ a.address], acc.2)
  | .link => (acc.1, some a.address)
  | .otherFam => acc

/-- The per-interface record built by `_network`. -/
def ifaceOf (stats : Option IfStats) (addrs : List IfAddr) : IfaceInfo :=
  let acc := addrs.foldl addrStep ([], none)
  { ip_addresses := acc.1, mac := acc.2,
    stats := stats.map fun st =>
      { is_up := if st.isup then "UP" else "DOWN",
        speed := if (0 : Int) < st.speed then toString st.speed ++ " Mbps" else "N/A",
        mtu := st.mtu } }

/-- The `_network` sub-record. -/
structure NetworkInfo where
  bytes_sent : String
  bytes_recv : String
  packets_sent : Nat
  packets_recv : Nat
  interfaces : List (String × IfaceInfo)
deriving DecidableEq, Repr

/-- `SystemReport._network`: interfaces absent from `net_if_stats` get
an empty `stats` sub-record, never an error. -/
def networkOf (e : NetEnv) : NetworkInfo :=
  { bytes_sent := fmtMB e.io.bytes_sent,
    bytes_recv := fmtMB e.io.bytes_recv,
    packets_sent := e.io.packets_sent,
    packets_recv := e.io.packets_recv,
    interfaces := e.if_addrs.map fun p => (p.1, ifaceOf (e.if_stats.lookup p.1) p.2) }

/-- One entry of the `processes` list. -/
structure ProcEntry where
  pid : Int
  name : String
  cpu_percent : Rat
  memory_percent : Rat
  memory_mb : Rat
deriving DecidableEq, Repr

/-- The candidate set of `_processes`: processes whose detail read
succeeded; a process that vanished or denied access is dropped
(`continue`), not replaced. -/
def candidatesOf (ps : List ProcEnum) : List ProcEntry :=
  ps.filterMap fun p => p.rss.map fun r =>
    { pid := p.pid, name := p.name, cpu_percent := p.cpu_percent,
      memory_percent := p.memory_percent,
      memory_mb := (r : Rat) / ((1024 : Rat) ^ 2) }

/-- The ordering of `procs.sort(key=lambda x: x.get('memory_percent', 0),
reverse=True)`: descending by memory percentage, ties `True` both ways so
a stable sort keeps enumeration order. -/
def procGe (a b : ProcEntry) : Prop :=
  b.memory_percent ≤ a.memory_percent

instance : DecidableRel procGe := fun a b =>
  inferInstanceAs (Decidable (b.memory_percent ≤ a.memory_percent))

instance : IsTotal ProcEntry procGe :=
  ⟨fun a b => le_total b.memory_percent a.memory_percent⟩

instance : IsTrans ProcEntry procGe :=
  ⟨fun _ _ _ h1 h2 => le_trans h2 h1⟩

/-- The candidates after Python's stable descending sort
(`list.sort(key=..., reverse=True)` is the unique stable sort for this
ordering, here realised by insertion sort). -/
def rankedOf (ps : List ProcEnum) : List ProcEntry :=
  (candidatesOf ps).insertionSort procGe

/-- `SystemReport._processes`: sort, then `procs[:8]`. -/
def processesOf (ps : List ProcEnum) : List ProcEntry :=
  (rankedOf ps).take 8

/-- One entry of the `users` list. -/
structure UserInfo where
  name : String
  host : String
  started : String
deriving DecidableEq, Repr

/-- `SystemReport._users`. -/
def usersOf (us : List UserSess) : List UserInfo :=
  us.map fun u => { name := u.name, host := u.host, started := hmsOf u.started }

/-- `SystemReport._boot`. -/
def bootOf (boot_time : Nat) : String :=
  ymdhmsOf boot_time

/-- The `sensors` field: `na` is the `{"info": "N/A"}` dictionary
returned on `AttributeError`; `chips` is the per-chip mapping (at most
two `current` readings per chip). -/
inductive SensorsInfo where
  | na
  | chips (groups : List (String × List Rat))
deriving DecidableEq, Repr

/-- `SystemReport._sensors`. -/
def sensorsOf (env : Option (List (String × List Rat))) : SensorsInfo :=
  match env with
  | none => .na
  | some temps => .chips (temps.map fun p => (p.1, p.2.take 2))

/-! ## The aggregator -/

/-- The completed `self.info` dictionary: one field per collector, plus
the timestamp. -/
structure Info where
  time : String
  platform : PlatformInfo
  cpu : CpuInfo
  memory : MemoryInfo
  disks : List DiskEntry
  network : NetworkInfo
  processes : List ProcEntry
  users : List UserInfo
  boot : String
  sensors : SensorsInfo
deriving DecidableEq, Repr

/-- The aggregator object.  `__init__` stores the format and stamps
`self.time` from the wall clock at construction. -/
structure SystemReport where
  fmt : String
  time : String

/-- `SystemReport.__init__(fmt)` at construction wall-clock `now`. -/
def SystemReport.init (fmt : String) (now : Nat) : SystemReport :=
  { fmt := fmt, time := ymdhmsOf now }

/-- The names of the nine collectors, in the evaluation order of the
dict literal in `collect`. -/
def collectorNames : List String :=
  ["platform", "cpu", "memory", "disks", "network", "processes", "users",
   "boot", "sensors"]

/-- `SystemReport.collect`, together with the trace of collectors that
were invoked.  The dict literal evaluates its values left to right, so
`_platform()` runs first; if it raises, the remaining collectors are
never invoked and the exception propagates. -/
def SystemReport.collectTrace (r : SystemReport) (env : Env) :
    Except PyErr Info × List String :=
  match platformOf env.platform with
  | .error e => (.error e, ["platform"])
  | .ok p =>
    (.ok { time := r.time, platform := p, cpu := cpuOf env.cpu,
           memory := memoryOf env.vmem env.swap, disks := disksOf env.disks,
           network := networkOf env.net, processes := processesOf env.procs,
           users := usersOf env.users, boot := bootOf env.boot_time,
           sensors := sensorsOf env.sensors },
     collectorNames)

/-- `SystemReport.collect` proper: the value of `self.info` (or the
escaping exception). -/
def SystemReport.collect (r : SystemReport) (env : Env) : Except PyErr Info :=
  (r.collectTrace env).1

/-! ## The dictionary view of `self.info`

`collect` builds nested Python dictionaries; the structures above are
its shape.  `toVal` is that dictionary, key for key in insertion
order. -/

/-- The `platform` dictionary. -/
def platVal (p : PlatformInfo) : Val :=
  .dict [("system", .str p.system), ("release", .str p.release),
         ("version", .str p.version), ("host", .str p.host), ("ip", .str p.ip)]

/-- The `cpu` dictionary. -/
def cpuVal (c : CpuInfo) : Val :=
  .dict [("physical_cores", .int c.physical_cores),
         ("logical_cores", .int c.logical_cores),
         ("freq", .str c.freq), ("usage", .float c.usage),
         ("per_cpu", .list (c.per_cpu.map Val.float))]

/-- The `memory` dictionary. -/
def memVal (m : MemoryInfo) : Val :=
  .dict [("total_ram", .str m.total_ram), ("used_ram", .str m.used_ram),
         ("ram_percent", .float m.ram_percent), ("swap", .str m.swap)]

/-- One `disk_info` dictionary (the optional I/O keys come last, in
insertion order). -/
def diskVal (d : DiskEntry) : Val :=
  .dict ([("device", .str d.device), ("mountpoint", .str d.mountpoint),
          ("fstype", .str d.fstype), ("total", .str d.total),
          ("used", .str d.used), ("free", .str d.free),
          ("percent", .float d.percent)] ++
    match d.io with
    | some rw => [("read_bytes", Val.str rw.1), ("write_bytes", Val.str rw.2)]
    | none => [])

/-- An interface `stats` dictionary (`{}` when the interface was absent
from `net_if_stats`). -/
def statsVal : Option StatsInfo → Val
  | none => .dict []
  | some st => .dict [("is_up", .str st.is_up), ("speed", .str st.speed),
                      ("mtu", .int st.mtu)]

/-- One interface dictionary. -/
def ifaceVal (i : IfaceInfo) : Val :=
  .dict [("ip_addresses", .list (i.ip_addresses.map Val.str)),
         ("mac", match i.mac with | some m => .str m | none => .nullv),
         ("stats", statsVal i.stats)]

/-- The entries of the `network` dictionary, in insertion order. -/
def netValEntries (n : NetworkInfo) : List (String × Val) :=
  [("bytes_sent", .str n.bytes_sent), ("bytes_recv", .str n.bytes_recv),
   ("packets_sent", .int n.packets_sent),
   ("packets_recv", .int n.packets_recv),
   ("interfaces", .dict (n.interfaces.map fun p => (p.1, ifaceVal p.2)))]

/-- The `network` dictionary. -/
def netVal (n : NetworkInfo) : Val :=
  .dict (netValEntries n)

/-- One process dictionary (`p.info` plus the appended `memory_mb`). -/
def procVal (p : ProcEntry) : Val :=
  .dict [("pid", .int p.pid), ("name", .str p.name),
         ("cpu_percent", .float p.cpu_percent),
         ("memory_percent", .float p.memory_percent),
         ("memory_mb", .float p.memory_mb)]

/-- One user dictionary. -/
def userVal (u : UserInfo) : Val :=
  .dict [("name", .str u.name), ("host", .str u.host),
         ("started", .str u.started)]

/-- The `sensors` dictionary: `{"info": "N/A"}` on the `AttributeError`
path, otherwise the per-chip mapping to lists of `{"current": t}`. -/
def sensVal : SensorsInfo → Val
  | .na => .dict [("info", .str "N/A")]
  | .chips gs =>
    .dict (gs.map fun g =>
      (g.1, Val.list (g.2.map fun t => Val.dict [("current", Val.float t)])))

/-- The entries of the full `self.info` dictionary, in insertion
order. -/
def toValEntries (i : Info) : List (String × Val) :=
  [("time", .str i.time), ("platform", platVal i.platform),
   ("cpu", cpuVal i.cpu), ("memory", memVal i.memory),
   ("disks", .list (i.disks.map diskVal)),
   ("network", netVal i.network),
   ("processes", .list (i.processes.map procVal)),
   ("users", .list (i.users.map userVal)),
   ("boot", .str i.boot), ("sensors", sensVal i.sensors)]

/-- The full `self.info` dictionary. -/
def toVal (i : Info) : Val :=
  .dict (toValEntries i)

/-- The keys of a dictionary value. -/
def valKeys : Val → List String
  | .dict kvs => kvs.map Prod.fst
  | _ => []

/-- `SystemReport.json_report`:
`json.dumps(self.info, indent=2, default=str)`. -/
def jsonReport (i : Info) : String :=
  dumps (toVal i) 0

/-! ## The human text renderer (`SystemReport.text_report`) -/

/-- `"=" * 60`. -/
def hr60 : String := String.mk (List.replicate 60 '=')

/-- `"-" * 40`. -/
def hr40 : String := String.mk (List.replicate 40 '-')

/-- The lines printed for one disk (1-based index `i`). -/
def diskLines (p : Nat × DiskEntry) : List String :=
  [toString p.1 ++ ". " ++ p.2.device ++ " → " ++ p.2.mountpoint,
   "   Тип: " ++ p.2.fstype ++ ", Всего: " ++ p.2.total,
   "   Использовано: " ++ p.2.used ++ " (" ++ floatRepr p.2.percent ++
     "%), Свободно: " ++ p.2.free] ++
  match p.2.io with
  | some rw => ["   Чтение: " ++ rw.1 ++ ", Запись: " ++ rw.2]
  | none => []

/-- The lines printed for one network interface: nothing at all when its
address list is empty; otherwise name, optional MAC, the first two
addresses, and the optional status line. -/
def ifaceLines (name : String) (i : IfaceInfo) : List String :=
  if i.ip_addresses.isEmpty then []
  else
    ["\n" ++ name ++ ":"] ++
    (match i.mac with
     | some m => if m.isEmpty then [] else ["  MAC: " ++ m]
     | none => []) ++
    (i.ip_addresses.take 2).map (fun ip => "  " ++ ip) ++
    (match i.stats with
     | some st => ["  Статус: " ++ st.is_up ++ ", " ++ "Скорость: " ++ st.speed]
     | none => [])

/-- The line printed for one process (1-based index `i`). -/
def procLine (p : Nat × ProcEntry) : String :=
  toString p.1 ++ ". " ++ padRight 20 (p.2.name.take 20) ++ " PID:" ++
    padLeft 6 (toString p.2.pid) ++ " CPU:" ++
    padLeft 5 (fmt1R p.2.cpu_percent) ++ "% MEM:" ++
    padLeft 5 (fmt1R p.2.memory_percent) ++ "%"

/-- The line printed for one user session. -/
def userLine (u : UserInfo) : String :=
  u.name ++ " с " ++ u.host ++ " (с " ++ u.started ++ ")"

/-- The list `report` accumulated by `text_report` (`t` is
`self.time`). -/
def reportLines (t : String) (info : Info) : List String :=
  [hr60, "СИСТЕМНЫЙ ОТЧЕТ - " ++ t, hr60] ++
  ["\nПЛАТФОРМА:", hr40,
   "Система: " ++ info.platform.system ++ " " ++ info.platform.release,
   "Версия: " ++ info.platform.version,
   "Хост: " ++ info.platform.host,
   "IP-адрес: " ++ info.platform.ip] ++
  ["\nПРОЦЕССОР:", hr40,
   "Ядра: " ++ toString info.cpu.physical_cores ++ " физических, " ++
     toString info.cpu.logical_cores ++ " логических",
   "Частота: " ++ info.cpu.freq,
   "Загрузка: " ++ floatRepr info.cpu.usage ++ "%",
   "По ядрам: " ++
     String.intercalate ", " (info.cpu.per_cpu.map fun p => floatRepr p ++ "%")] ++
  ["\nПАМЯТЬ:", hr40,
   "ОЗУ: " ++ info.memory.used_ram ++ " / " ++ info.memory.total_ram ++ " (" ++
     floatRepr info.memory.ram_percent ++ "%)",
   "SWAP: " ++ info.memory.swap] ++
  ["\nДИСКОВЫЕ НАКОПИТЕЛИ:", hr40] ++
  (List.enumFrom 1 info.disks).flatMap diskLines ++
  ["\nСЕТЕВЫЕ ИНТЕРФЕЙСЫ:", hr40,
   "Отправлено: " ++ info.network.bytes_sent ++ ", Получено: " ++
     info.network.bytes_recv,
   "Пакеты: отправлено " ++ toString info.network.packets_sent ++
     ", получено " ++ toString info.network.packets_recv] ++
  info.network.interfaces.flatMap (fun p => ifaceLines p.1 p.2) ++
  ["\nТОП-8 ПРОЦЕССОВ:", hr40] ++
  (List.enumFrom 1 info.processes).map procLine ++
  (if info.users.isEmpty then []
   else ["\nАКТИВНЫЕ ПОЛЬЗОВАТЕЛИ:", hr40] ++ info.users.map userLine) ++
  ["\nВРЕМЯ ЗАГРУЗКИ: " ++ info.boot, hr60]

/-- `SystemReport.text_report`: `"\n".join(report)`. -/
def textReport (t : String) (info : Info) : String :=
  String.intercalate "\n" (reportLines t info)

/-! ## `text_report` as it actually executes: fallible dictionary
accesses over the `self.info` dictionary

Every `d['k']` subscript, slicing, and format-spec coercion of the
Python renderer is modelled as a step that can fail, so that the
renderer's totality over completed snapshots is a theorem, not a
typing accident. -/

mutual

/-- Python `repr` restricted to this value universe (single-quoted
strings; reachable only through `str` of containers, which the program
never produces). -/
def pyRepr : Val → String
  | .nullv => "None"
  | .str s => "\x27" ++ s ++ "\x27"
  | .int n => toString n
  | .float q => floatRepr q
  | .other s => s
  | .list xs => "[" ++ pyReprItems xs ++ "]"
  | .dict kvs => "\x7b" ++ pyReprEntries kvs ++ "\x7d"

/-- Comma-separated `repr`s of list items. -/
def pyReprItems : List Val → String
  | [] => ""
  | [x] => pyRepr x
  | x :: y :: xs => pyRepr x ++ ", " ++ pyReprItems (y :: xs)

/-- Comma-separated `repr`s of dict entries. -/
def pyReprEntries : List (String × Val) → String
  | [] => ""
  | [(k, v)] => "\x27" ++ k ++ "\x27" ++ ": " ++ pyRepr v
  | (k, v) :: kv :: kvs =>
    "\x27" ++ k ++ "\x27" ++ ": " ++ pyRepr v ++ ", " ++ pyReprEntries (kv :: kvs)

end

/-- Python `str()`, as used by f-string interpolation. -/
def pyStr : Val → String
  | .str s => s
  | v => pyRepr v

/-- Python truthiness of a value. -/
def pyTruthy : Val → Bool
  | .nullv => false
  | .str s => !s.isEmpty
  | .int n => n != 0
  | .float q => q != 0
  | .list xs => !xs.isEmpty
  | .dict kvs => !kvs.isEmpty
  | .other _ => true

/-- A `d[k]` subscript: `KeyError`/`TypeError` are rendering failures. -/
def getKey (v : Val) (k : String) : Except String Val :=
  match v with
  | .dict kvs =>
    match kvs.lookup k with
    | some x => .ok x
    | none => .error ("KeyError: " ++ k)
  | _ => .error "TypeError: not a dict"

/-- Python `k in d`. -/
def hasKey (v : Val) (k : String) : Bool :=
  match v with
  | .dict kvs => (kvs.lookup k).isSome
  | _ => false

/-- A value used where a `str` is required (slicing). -/
def asStr : Val → Except String String
  | .str s => .ok s
  | _ => .error "TypeError: not a str"

/-- A value used where an `int` format spec is applied. -/
def asInt : Val → Except String Int
  | .int n => .ok n
  | _ => .error "TypeError: not an int"

/-- A value used where a `.1f` format spec is applied. -/
def asFloat : Val → Except String Rat
  | .float q => .ok q
  | .int n => .ok (n : Rat)
  | _ => .error "TypeError: not a number"

/-- A value iterated as a list. -/
def asList : Val → Except String (List Val)
  | .list xs => .ok xs
  | _ => .error "TypeError: not a list"

/-- A value iterated via `.items()`. -/
def asDictE : Val → Except String (List (String × Val))
  | .dict kvs => .ok kvs
  | _ => .error "TypeError: not a dict"

/-- A `for` loop whose body may raise: stops at the first failure. -/
def mapME {α β : Type} (f : α → Except String β) : List α → Except String (List β)
  | [] => .ok []
  | x :: xs => do
    let y ← f x
    let ys ← mapME f xs
    pure (y :: ys)

/-- The platform section of `text_report`, with its accesses. -/
def platformLinesE (v : Val) : Except String (List String) := do
  let p ← getKey v "platform"
  let system ← getKey p "system"
  let release ← getKey p "release"
  let version ← getKey p "version"
  let host ← getKey p "host"
  let ip ← getKey p "ip"
  pure ["\nПЛАТФОРМА:", hr40,
        "Система: " ++ pyStr system ++ " " ++ pyStr release,
        "Версия: " ++ pyStr version,
        "Хост: " ++ pyStr host,
        "IP-адрес: " ++ pyStr ip]

/-- The CPU section of `text_report`. -/
def cpuLinesE (v : Val) : Except String (List String) := do
  let c ← getKey v "cpu"
  let pc ← getKey c "physical_cores"
  let lc ← getKey c "logical_cores"
  let freq ← getKey c "freq"
  let usage ← getKey c "usage"
  let per ← getKey c "per_cpu"
  let pers ← asList per
  pure ["\nПРОЦЕССОР:", hr40,
        "Ядра: " ++ pyStr pc ++ " физических, " ++ pyStr lc ++ " логических",
        "Частота: " ++ pyStr freq,
        "Загрузка: " ++ pyStr usage ++ "%",
        "По ядрам: " ++
          String.intercalate ", " (pers.map fun p => pyStr p ++ "%")]

/-- The memory section of `text_report`. -/
def memLinesE (v : Val) : Except String (List String) := do
  let m ← getKey v "memory"
  let used ← getKey m "used_ram"
  let total ← getKey m "total_ram"
  let percent ← getKey m "ram_percent"
  let swap ← getKey m "swap"
  pure ["\nПАМЯТЬ:", hr40,
        "ОЗУ: " ++ pyStr used ++ " / " ++ pyStr total ++ " (" ++
          pyStr percent ++ "%)",
        "SWAP: " ++ pyStr swap]

/-- The lines of one disk in `text_report` (with the `'read_bytes' in
disk` guard before the optional I/O line). -/
def diskLinesE (p : Nat × Val) : Except String (List String) := do
  let device ← getKey p.2 "device"
  let mountpoint ← getKey p.2 "mountpoint"
  let fstype ← getKey p.2 "fstype"
  let total ← getKey p.2 "total"
  let used ← getKey p.2 "used"
  let percent ← getKey p.2 "percent"
  let free ← getKey p.2 "free"
  let base :=
    [toString p.1 ++ ". " ++ pyStr device ++ " → " ++ pyStr mountpoint,
     "   Тип: " ++ pyStr fstype ++ ", Всего: " ++ pyStr total,
     "   Использовано: " ++ pyStr used ++ " (" ++ pyStr percent ++
       "%), Свободно: " ++ pyStr free]
  if hasKey p.2 "read_bytes" then
    let rb ← getKey p.2 "read_bytes"
    let wb ← getKey p.2 "write_bytes"
    pure (base ++ ["   Чтение: " ++ pyStr rb ++ ", Запись: " ++ pyStr wb])
  else
    pure base

/-- The disks section of `text_report`. -/
def disksSectionE (v : Val) : Except String (List String) := do
  let ds ← getKey v "disks"
  let l ← asList ds
  let parts ← mapME diskLinesE (List.enumFrom 1 l)
  pure (["\nДИСКОВЫЕ НАКОПИТЕЛИ:", hr40] ++ parts.flatten)

/-- The lines of one interface in `text_report` (nothing when
`info['ip_addresses']` is falsy). -/
def ifaceLinesE (p : String × Val) : Except String (List String) := do
  let ips ← getKey p.2 "ip_addresses"
  if pyTruthy ips then
    let mac ← getKey p.2 "mac"
    let ipl ← asList ips
    let stats ← getKey p.2 "stats"
    let statLines ←
      if pyTruthy stats then do
        let isup ← getKey stats "is_up"
        let speed ← getKey stats "speed"
        pure ["  Статус: " ++ pyStr isup ++ ", " ++ "Скорость: " ++ pyStr speed]
      else pure []
    pure (["\n" ++ p.1 ++ ":"] ++
      (if pyTruthy mac then ["  MAC: " ++ pyStr mac] else []) ++
      (ipl.take 2).map (fun ip => "  " ++ pyStr ip) ++ statLines)
  else
    pure []

/-- The network section of `text_report`. -/
def networkSectionE (v : Val) : Except String (List String) := do
  let net ← getKey v "network"
  let bs ← getKey net "bytes_sent"
  let br ← getKey net "bytes_recv"
  let ps ← getKey net "packets_sent"
  let pr ← getKey net "packets_recv"
  let ifs ← getKey net "interfaces"
  let kvs ← asDictE ifs
  let parts ← mapME ifaceLinesE kvs
  pure (["\nСЕТЕВЫЕ ИНТЕРФЕЙСЫ:", hr40,
         "Отправлено: " ++ pyStr bs ++ ", Получено: " ++ pyStr br,
         "Пакеты: отправлено " ++ pyStr ps ++ ", получено " ++ pyStr pr] ++
        parts.flatten)

/-- One process line in `text_report`, with its slicing and format-spec
coercions. -/
def procLineE (p : Nat × Val) : Except String String := do
  let name ← getKey p.2 "name" >>= asStr
  let pid ← getKey p.2 "pid" >>= asInt
  let cp ← getKey p.2 "cpu_percent" >>= asFloat
  let mp ← getKey p.2 "memory_percent" >>= asFloat
  pure (toString p.1 ++ ". " ++ padRight 20 (name.take 20) ++ " PID:" ++
    padLeft 6 (toString pid) ++ " CPU:" ++ padLeft 5 (fmt1R cp) ++
    "% MEM:" ++ padLeft 5 (fmt1R mp) ++ "%")

/-- The processes section of `text_report`. -/
def processesSectionE (v : Val) : Except String (List String) := do
  let ps ← getKey v "processes"
  let l ← asList ps
  let lines ← mapME procLineE (List.enumFrom 1 l)
  pure (["\nТОП-8 ПРОЦЕССОВ:", hr40] ++ lines)

/-- One user line in `text_report`. -/
def userLineE (u : Val) : Except String String := do
  let name ← getKey u "name"
  let host ← getKey u "host"
  let started ← getKey u "started"
  pure (pyStr name ++ " с " ++ pyStr host ++ " (с " ++ pyStr started ++ ")")

/-- The users section of `text_report` (guarded by the truthiness of
`self.info['users']`). -/
def usersSectionE (v : Val) : Except String (List String) := do
  let us ← getKey v "users"
  if pyTruthy us then
    let l ← asList us
    let lines ← mapME userLineE l
    pure (["\nАКТИВНЫЕ ПОЛЬЗОВАТЕЛИ:", hr40] ++ lines)
  else pure []

/-- `text_report` with every dictionary access explicit: it either
raises (`.error`) or returns the joined report. -/
def textReportE (t : String) (v : Val) : Except String String := do
  let plat ← platformLinesE v
  let cpu ← cpuLinesE v
  let mem ← memLinesE v
  let disks ← disksSectionE v
  let net ← networkSectionE v
  let procs ← processesSectionE v
  let users ← usersSectionE v
  let boot ← getKey v "boot"
  pure (String.intercalate "\n"
    ([hr60, "СИСТЕМНЫЙ ОТЧЕТ - " ++ t, hr60] ++ plat ++ cpu ++ mem ++
     disks ++ net ++ procs ++ users ++
     ["\nВРЕМЯ ЗАГРУЗКИ: " ++ pyStr boot, hr60]))

/-! ## Agreement of the fallible renderer with the total one -/

/-- The `Bool`-valued test "this entry's memory percentage is `v`". -/
def mpIs (v : Rat) (e : ProcEntry) : Bool :=
  decide (e.memory_percent = v)

/-- A disk entry with its optional I/O fields removed. -/
def dropIo (e : DiskEntry) : DiskEntry :=
  { e with io := none }

/-- A concrete ambient OS state on which hostname resolution succeeds. -/
def envOk : Env :=
  { now := 1000,
    platform := { system := "Linux", release := "6.1.0", version := "#1 SMP",
                  hostname := "demo", gethostbyname := fun _ => some "192.168.0.2" },
    cpu := { physical_cores := 2, logical_cores := 4, freq := none,
             usage := 0, per_cpu := [] },
    vmem := { total := 0, used := 0, percent := 0 },
    swap := { used := 0, total := 0 },
    disks := { partitions := [], ioTable := none },
    net := { io := { bytes_sent := 0, bytes_recv := 0, packets_sent := 0,
                     packets_recv := 0 },
             if_addrs := [], if_stats := [] },
    procs := [], users := [], boot_time := 0, sensors := none }

/-- `envOk` at a later wall-clock instant (only the clock differs). -/
def envOk2 : Env :=
  { envOk with now := 2000 }

/-- A concrete ambient OS state on which hostname resolution fails
(`socket.gaierror`). -/
def envFail : Env :=
  { envOk with
    platform := { envOk.platform with gethostbyname := fun _ => none } }

/-- The chip groups of a sensors field. -/
def sensorGroups : SensorsInfo → List (String × List Rat)
  | .na => []
  | .chips gs => gs

/-- The usage reading of `dpartA`. -/
def duA : DiskUsage :=
  { total := 1073741824, used := 536870912, free := 536870912, percent := 50 }

/-- A partition whose usage query succeeds. -/
def dpartA : Partition :=
  { device := "/sda", mountpoint := "/", fstype := "ext4",
    usage := some duA }

/-- A partition whose usage query raises `PermissionError`. -/
def dpartB : Partition :=
  { device := "/sdb", mountpoint := "/mnt", fstype := "ext4", usage := none }

/-- A concrete disk environment: one statable partition, one denied
partition, and an I/O table keyed by the slash-stripped device name. -/
def denv : DiskEnv :=
  { partitions := [dpartA, dpartB],
    ioTable := some [("sda", { read_bytes := 1048576, write_bytes := 2097152 })] }

/-- The single entry `_disks` produces on `denv`. -/
def dEntryA : DiskEntry :=
  diskEntryOf denv.ioTable dpartA duA

/-- Two `virtual_memory` readings whose totals differ by ten million
bytes but agree once scaled to gigabytes and fixed to one decimal. -/
def vmA : VMem := { total := 1610612736, used := 0, percent := 0 }

/-- See `vmA`. -/
def vmB : VMem := { total := 1620612736, used := 0, percent := 0 }

/-- An empty swap reading. -/
def swap0 : Swap := { used := 0, total := 0 }

/-- Does `s` start with `t`? (plain character-list matching) -/
def startsWithL : List Char → List Char → Bool
  | _, [] => true
  | [], _ :: _ => false
  | a :: as, b :: bs => a == b && startsWithL as bs

/-- Does `s` contain `t` as a contiguous substring? -/
def containsL : List Char → List Char → Bool
  | [], t => t.isEmpty
  | a :: rest, t => startsWithL (a :: rest) t || containsL rest t

/-- A completed snapshot whose only non-ASCII text is the Cyrillic
process name `"п"`. -/
def infoCyr : Info :=
  { time := "", platform := { system := "", release := "", version := "",
                              host := "", ip := "" },
    cpu := { physical_cores := 0, logical_cores := 0, freq := "", usage := 0,
             per_cpu := [] },
    memory := { total_ram := "", used_ram := "", ram_percent := 0, swap := "" },
    disks := [],
    network := { bytes_sent := "", bytes_recv := "", packets_sent := 0,
                 packets_recv := 0, interfaces := [] },
    processes := [{ pid := 1, name := "п", cpu_percent := 0,
                    memory_percent := 0, memory_mb := 0 }],
    users := [], boot := "", sensors := .chips [] }

/-- `t` occurs contiguously inside `s`. -/
def strContains (s t : String) : Prop :=
  ∃ a b, s.data = a ++ t.data ++ b

/-- An interface with no addresses but a MAC and a stats record. -/
def iEmpty : IfaceInfo :=
  { ip_addresses := [], mac := some "aa:bb:cc",
    stats := some { is_up := "UP", speed := "N/A", mtu := 1500 } }

/-- A completed snapshot whose only interface is `("lo", iEmpty)`. -/
def infoIface : Info :=
  { time := "", platform := { system := "", release := "", version := "",
                              host := "", ip := "" },
    cpu := { physical_cores := 0, logical_cores := 0, freq := "", usage := 0,
             per_cpu := [] },
    memory := { total_ram := "", used_ram := "", ram_percent := 0, swap := "" },
    disks := [],
    network := { bytes_sent := "", bytes_recv := "", packets_sent := 0,
                 packets_recv := 0, interfaces := [("lo", iEmpty)] },
    processes := [], users := [], boot := "", sensors := .na }

@[simp]
theorem okBind {ε α β : Type} (x : α) (f : α → Except ε β) :
    (Except.ok x >>= f : Except ε β) = f x := rfl

@[simp]
theorem purePlain {ε α : Type} (x : α) : (pure x : Except ε α) = Except.ok x := rfl

theorem platformLinesE_toVal (i : Info) :
    platformLinesE (toVal i) =
      .ok ["\nПЛАТФОРМА:", hr40,
           "Система: " ++ i.platform.system ++ " " ++ i.platform.release,
           "Версия: " ++ i.platform.version,
           "Хост: " ++ i.platform.host,
           "IP-адрес: " ++ i.platform.ip] := rfl

theorem pyStr_float_map (l : List Rat) :
    (l.map Val.float).map (fun p => pyStr p ++ "%") =
      l.map fun p => floatRepr p ++ "%" := by
  simp only [List.map_map]; rfl

theorem cpuLinesE_toVal (i : Info) :
    cpuLinesE (toVal i) =
      .ok ["\nПРОЦЕССОР:", hr40,
           "Ядра: " ++ toString i.cpu.physical_cores ++ " физических, " ++
             toString i.cpu.logical_cores ++ " логических",
           "Частота: " ++ i.cpu.freq,
           "Загрузка: " ++ floatRepr i.cpu.usage ++ "%",
           "По ядрам: " ++ String.intercalate ", "
             (i.cpu.per_cpu.map fun p => floatRepr p ++ "%")] := by
  show Except.ok _ = _
  rw [pyStr_float_map]
  rfl

theorem memLinesE_toVal (i : Info) :
    memLinesE (toVal i) =
      .ok ["\nПАМЯТЬ:", hr40,
           "ОЗУ: " ++ i.memory.used_ram ++ " / " ++ i.memory.total_ram ++
             " (" ++ floatRepr i.memory.ram_percent ++ "%)",
           "SWAP: " ++ i.memory.swap] := rfl

theorem diskLinesE_diskVal (k : Nat) (d : DiskEntry) :
    diskLinesE (k, diskVal d) = .ok (diskLines (k, d)) := by
  obtain ⟨dev, mnt, fs, tot, usd, fre, pct, io⟩ := d
  cases io <;> rfl

theorem disks_mapME (l : List DiskEntry) (k : Nat) :
    mapME diskLinesE (List.enumFrom k (l.map diskVal)) =
      .ok ((List.enumFrom k l).map diskLines) := by
  induction l generalizing k with
  | nil => rfl
  | cons d rest ih =>
    show diskLinesE (k, diskVal d) >>= _ = _
    rw [diskLinesE_diskVal, okBind, ih]
    rfl

theorem disksSectionE_toVal (i : Info) :
    disksSectionE (toVal i) =
      .ok (["\nДИСКОВЫЕ НАКОПИТЕЛИ:", hr40] ++
           (List.enumFrom 1 i.disks).flatMap diskLines) := by
  show mapME diskLinesE (List.enumFrom 1 (i.disks.map diskVal)) >>= _ = _
  rw [disks_mapME, okBind]
  simp [List.flatMap]

theorem ifaceLinesE_ifaceVal (nm : String) (ii : IfaceInfo) :
    ifaceLinesE (nm, ifaceVal ii) = .ok (ifaceLines nm ii) := by
  obtain ⟨ips, mac, stats⟩ := ii
  cases ips with
  | nil => cases mac <;> cases stats <;> rfl
  | cons a rest =>
    have hips : ∀ (l : List String) (k : Nat),
        ((l.map Val.str).take k).map (fun ip => "  " ++ pyStr ip) =
          (l.take k).map (fun s => "  " ++ s) := by
      intro l
      induction l with
      | nil => intro k; simp
      | cons x xs ih =>
        intro k
        cases k with
        | zero => simp
        | succ k => simp [ih k]; rfl
    cases mac with
    | none =>
      cases stats <;>
        simp [ifaceLinesE, ifaceLines, ifaceVal, statsVal, getKey, asList,
              List.lookup, pyTruthy, pyStr, hips (a :: rest) 2] <;>
        rfl
    | some m =>
      cases stats <;> cases hm : m.isEmpty <;>
        simp [ifaceLinesE, ifaceLines, ifaceVal, statsVal, getKey, asList,
              List.lookup, pyTruthy, pyStr, hm, hips (a :: rest) 2] <;>
        rfl

theorem ifaces_mapME (l : List (String × IfaceInfo)) :
    mapME ifaceLinesE (l.map fun p => (p.1, ifaceVal p.2)) =
      .ok (l.map fun p => ifaceLines p.1 p.2) := by
  induction l with
  | nil => rfl
  | cons x rest ih =>
    show ifaceLinesE (x.1, ifaceVal x.2) >>= _ = _
    rw [ifaceLinesE_ifaceVal, okBind, ih]
    rfl

theorem networkSectionE_toVal (i : Info) :
    networkSectionE (toVal i) =
      .ok (["\nСЕТЕВЫЕ ИНТЕРФЕЙСЫ:", hr40,
            "Отправлено: " ++ i.network.bytes_sent ++ ", Получено: " ++
              i.network.bytes_recv,
            "Пакеты: отправлено " ++ toString i.network.packets_sent ++
              ", получено " ++ toString i.network.packets_recv] ++
           i.network.interfaces.flatMap fun p => ifaceLines p.1 p.2) := by
  show mapME ifaceLinesE (i.network.interfaces.map fun p => (p.1, ifaceVal p.2))
        >>= _ = _
  rw [ifaces_mapME, okBind]
  simp [List.flatMap]
  exact ⟨rfl, rfl⟩

theorem procLineE_procVal (k : Nat) (p : ProcEntry) :
    procLineE (k, procVal p) = .ok (procLine (k, p)) := rfl

theorem procs_mapME (l : List ProcEntry) (k : Nat) :
    mapME procLineE (List.enumFrom k (l.map procVal)) =
      .ok ((List.enumFrom k l).map procLine) := by
  induction l generalizing k with
  | nil => rfl
  | cons p rest ih =>
    show procLineE (k, procVal p) >>= _ = _
    rw [procLineE_procVal, okBind, ih]
    rfl

theorem processesSectionE_toVal (i : Info) :
    processesSectionE (toVal i) =
      .ok (["\nТОП-8 ПРОЦЕССОВ:", hr40] ++
           (List.enumFrom 1 i.processes).map procLine) := by
  show mapME procLineE (List.enumFrom 1 (i.processes.map procVal)) >>= _ = _
  rw [procs_mapME, okBind]
  rfl

theorem userLineE_userVal (u : UserInfo) :
    userLineE (userVal u) = .ok (userLine u) := rfl

theorem users_mapME (l : List UserInfo) :
    mapME userLineE (l.map userVal) = .ok (l.map userLine) := by
  induction l with
  | nil => rfl
  | cons u rest ih =>
    show userLineE (userVal u) >>= _ = _
    rw [userLineE_userVal, okBind, ih]
    rfl

theorem usersSectionE_toVal (i : Info) :
    usersSectionE (toVal i) =
      .ok (if i.users.isEmpty then []
           else ["\nАКТИВНЫЕ ПОЛЬЗОВАТЕЛИ:", hr40] ++ i.users.map userLine) := by
  cases hu : i.users with
  | nil =>
    simp [usersSectionE, toVal, toValEntries, getKey, List.lookup, pyTruthy, hu]
  | cons u rest =>
    have h := users_mapME (u :: rest)
    simp only [List.map] at h
    simp [usersSectionE, toVal, toValEntries, getKey, List.lookup, pyTruthy, hu, asList, h]

/-! ## Helper lemmas about the process ranking and disk filtering -/

theorem filter_orderedInsert (v : Rat) (a : ProcEntry) (l : List ProcEntry) :
    (l.orderedInsert procGe a).filter (mpIs v) =
      if mpIs v a then a :: l.filter (mpIs v) else l.filter (mpIs v) := by
  induction l with
  | nil =>
    by_cases h : mpIs v a = true <;> simp [List.orderedInsert, List.filter, h]
  | cons b bs ih =>
    by_cases hab : procGe a b
    · rw [List.orderedInsert, if_pos hab]
      by_cases ha : mpIs v a = true <;> by_cases hb : mpIs v b = true <;>
        simp [List.filter, ha, hb]
    · rw [List.orderedInsert, if_neg hab]
      by_cases ha : mpIs v a = true <;> by_cases hb : mpIs v b = true
      · exact absurd (le_of_eq ((of_decide_eq_true hb).trans
          (of_decide_eq_true ha).symm)) hab
      · simp [List.filter, ha, hb, ih]
      · simp [List.filter, ha, hb, ih]
      · simp [List.filter, ha, hb, ih]

theorem filter_insertionSort (v : Rat) (l : List ProcEntry) :
    (l.insertionSort procGe).filter (mpIs v) = l.filter (mpIs v) := by
  induction l with
  | nil => rfl
  | cons x xs ih =>
    show ((xs.insertionSort procGe).orderedInsert procGe x).filter (mpIs v) = _
    rw [filter_orderedInsert, ih]
    by_cases hx : mpIs v x = true <;> simp [List.filter, hx]

theorem candidatesOf_length (ps : List ProcEnum) :
    (candidatesOf ps).length = (ps.filter fun p => p.rss.isSome).length := by
  induction ps with
  | nil => rfl
  | cons p rest ih =>
    cases h : p.rss <;>
      simp [candidatesOf, List.filterMap_cons, List.filter_cons, h] <;>
      simpa [candidatesOf] using ih

theorem candidatesOf_memPercent (ps : List ProcEnum) :
    (candidatesOf ps).map ProcEntry.memory_percent =
      (ps.filter fun p => p.rss.isSome).map ProcEnum.memory_percent := by
  induction ps with
  | nil => rfl
  | cons p rest ih =>
    cases h : p.rss <;>
      simp [candidatesOf, List.filterMap_cons, List.filter_cons, h] <;>
      simpa [candidatesOf] using ih

theorem disksOf_filter (parts : List Partition)
    (tbl : Option (List (String × DiskIoCounters))) :
    disksOf { partitions := parts, ioTable := tbl } =
      (parts.filter fun p => p.usage.isSome).map fun p =>
        diskEntryOf tbl p (p.usage.getD default) := by
  induction parts with
  | nil => rfl
  | cons p rest ih =>
    cases h : p.usage <;>
      simp [disksOf, List.filterMap_cons, List.filter_cons, h] <;>
      simpa [disksOf] using ih

/-! ## Concrete ambient states used by witnesses and counterexamples -/

/-- Claim C1 (amended): provided the platform hostname resolution
succeeds, `collect()` returns a structurally complete `self.info`
dictionary carrying exactly the ten top-level keys, regardless of any
disk, process, interface or sensor failures in the environment; a
resolution failure, however, is not caught by any collector and aborts
`collect()` (see the counterexample). -/
theorem claim_C1 (r : SystemReport) (env : Env) (ip : String)
    (h : env.platform.gethostbyname env.platform.hostname = some ip) :
    (r.collect env).map (fun i => valKeys (toVal i)) =
      .ok ["time", "platform", "cpu", "memory", "disks", "network",
           "processes", "users", "boot", "sensors"] := by
  simp [SystemReport.collect, SystemReport.collectTrace, platformOf, h,
        valKeys, toVal, toValEntries, Except.map]

/-- Witness for C1 at a concrete resolving environment. -/
theorem claim_C1_witness :
    envOk.platform.gethostbyname envOk.platform.hostname = some "192.168.0.2" ∧
    ((SystemReport.init "text" 0).collect envOk).map (fun i => valKeys (toVal i)) =
      .ok ["time", "platform", "cpu", "memory", "disks", "network",
           "processes", "users", "boot", "sensors"] :=
  ⟨rfl, claim_C1 (SystemReport.init "text" 0) envOk "192.168.0.2" rfl⟩

/-- Claim C1 counterexample: the aggregator *can* fail — on a host whose
hostname does not resolve, `_platform` raises and `collect()` aborts with
the exception instead of returning any Snapshot. -/
theorem claim_C1_counterexample :
    (SystemReport.init "text" 0).collect envFail = Except.error PyErr.gaierror := rfl

/-- Claim C2 (amended): the platform collector populates OS name,
release, version and hostname together with the resolved address when
resolution succeeds — but a resolution failure is *not* caught locally
and no `"unknown"`/`"N/A"` placeholder is substituted: the exception
escapes the collector. -/
theorem claim_C2 (e : PlatformEnv) :
    (∀ ip, e.gethostbyname e.hostname = some ip →
        platformOf e = .ok { system := e.system, release := e.release,
                             version := e.version, host := e.hostname,
                             ip := ip }) ∧
    (e.gethostbyname e.hostname = none →
        platformOf e = .error PyErr.gaierror) := by
  constructor
  · intro ip h; simp [platformOf, h]
  · intro h; simp [platformOf, h]

/-- Witness for C2 at concrete resolving and non-resolving
environments. -/
theorem claim_C2_witness :
    platformOf envOk.platform =
      .ok { system := "Linux", release := "6.1.0", version := "#1 SMP",
            host := "demo", ip := "192.168.0.2" } ∧
    platformOf envFail.platform = .error PyErr.gaierror :=
  ⟨(claim_C2 envOk.platform).1 "192.168.0.2" rfl,
   (claim_C2 envFail.platform).2 rfl⟩

/-- Claim C2 counterexample: on a resolution failure `_platform` returns
no sub-record at all (no placeholder, no populated remainder) — the
exception propagates. -/
theorem claim_C2_counterexample :
    platformOf envFail.platform = Except.error PyErr.gaierror := rfl

/-- Claim C9 (amended): each collector is invoked exactly once per
`collect()` when resolution succeeds (and only `_platform` runs when it
fails) — but the Snapshot's timestamp is stamped at aggregator
*construction* (`__init__`), not at the start of `collect()`: every
`collect()` on the same aggregator carries the same
construction-time stamp, whatever the clock reads at invocation. -/
theorem claim_C9 (fmt : String) (t : Nat) (envA envB : Env) (ipA ipB : String)
    (hA : envA.platform.gethostbyname envA.platform.hostname = some ipA)
    (hB : envB.platform.gethostbyname envB.platform.hostname = some ipB) :
    ((SystemReport.init fmt t).collectTrace envA).2 = collectorNames ∧
    (∀ n ∈ collectorNames,
        ((SystemReport.init fmt t).collectTrace envA).2.count n = 1) ∧
    (∀ env : Env, env.platform.gethostbyname env.platform.hostname = none →
        ((SystemReport.init fmt t).collectTrace env).2 = ["platform"]) ∧
    ((SystemReport.init fmt t).collect envA).map Info.time = .ok (ymdhmsOf t) ∧
    ((SystemReport.init fmt t).collect envB).map Info.time = .ok (ymdhmsOf t) := by
  have h1 : ((SystemReport.init fmt t).collectTrace envA).2 = collectorNames := by
    simp [SystemReport.collectTrace, platformOf, hA]
  refine ⟨h1, ?_, ?_, ?_, ?_⟩
  · rw [h1]; decide
  · intro env h; simp [SystemReport.collectTrace, platformOf, h]
  · simp [SystemReport.collect, SystemReport.collectTrace, platformOf, hA,
          Except.map, SystemReport.init]
  · simp [SystemReport.collect, SystemReport.collectTrace, platformOf, hB,
          Except.map, SystemReport.init]

/-- Witness for C9 at concrete environments. -/
theorem claim_C9_witness :
    ((SystemReport.init "json" 5).collectTrace envOk).2 = collectorNames ∧
    ((SystemReport.init "json" 5).collect envOk).map Info.time =
      .ok (ymdhmsOf 5) :=
  ⟨(claim_C9 "json" 5 envOk envOk2 "192.168.0.2" "192.168.0.2" rfl rfl).1,
   (claim_C9 "json" 5 envOk envOk2 "192.168.0.2" "192.168.0.2" rfl rfl).2.2.2.1⟩

/-- Claim C9 counterexample: two `collect()` calls on the same aggregator
under different wall-clock instants carry the *same* timestamp (the one
stamped in `__init__`), not different ones. -/
theorem claim_C9_counterexample :
    ((SystemReport.init "text" 0).collect envOk).map Info.time =
      ((SystemReport.init "text" 0).collect envOk2).map Info.time ∧
    envOk.now ≠ envOk2.now ∧
    ((SystemReport.init "text" 0).collect envOk).map Info.time =
      Except.ok "1970-01-01 00:00:00" :=
  ⟨rfl, by decide, rfl⟩

/-- Claim C8: a host without thermal-sensor capability gets the explicit
`{"info": "N/A"}` indicator, which differs from the sensors dictionary
of *every* sensor-capable host — in particular from the empty mapping of
a host reporting zero sensors; on capable hosts each chip group keeps at
most its first two current-temperature readings, in enumeration
order. -/
theorem claim_C8 (temps : List (String × List Rat)) :
    sensVal (sensorsOf (some temps)) ≠ sensVal (sensorsOf none) ∧
    sensVal (sensorsOf none) ≠ Val.dict [] ∧
    List.Forall₂ (fun t g => g.1 = t.1 ∧ g.2 = t.2.take 2) temps
      (sensorGroups (sensorsOf (some temps))) ∧
    ∀ g ∈ sensorGroups (sensorsOf (some temps)), g.2.length ≤ 2 := by
  refine ⟨?_, by simp [sensVal, sensorsOf], ?_, ?_⟩
  · intro h
    cases temps with
    | nil => simp [sensVal, sensorsOf] at h
    | cons t rest => simp [sensVal, sensorsOf] at h
  · simp [sensorsOf, sensorGroups, List.forall₂_map_right_iff, List.forall₂_same]
  · intro g hg
    simp [sensorsOf, sensorGroups, List.mem_map] at hg
    obtain ⟨p, q, ⟨_, rfl⟩⟩ := hg
    simp [List.length_take]

/-- Witness for C8 at a concrete three-reading chip. -/
theorem claim_C8_witness :
    ("chip0", ([1, 2] : List Rat)) ∈
      sensorGroups (sensorsOf (some [("chip0", [1, 2, 3])])) ∧
    (("chip0", ([1, 2] : List Rat)).2.length ≤ 2) ∧
    sensVal (sensorsOf (some [("chip0", [1, 2, 3])])) ≠ sensVal (sensorsOf none) :=
  ⟨List.mem_singleton_self _,
   (claim_C8 [("chip0", [1, 2, 3])]).2.2.2 _ (List.mem_singleton_self _),
   (claim_C8 [("chip0", [1, 2, 3])]).1⟩

/-! ## Data for the disk witness -/

/-- Claim C3: for every process enumeration, the process list is the
take-8 prefix of the stable descending ranking of exactly the
successfully-read candidates, so its length is `min 8 candidates`; the
ranking is a permutation of the candidate set (a vanished or
inaccessible process is dropped, never replaced by a placeholder), it is
pairwise descending by memory percentage, and ties keep the original
enumeration order (the filtration of the ranking at each key value
equals that of the candidate list). -/
theorem claim_C3 (ps : List ProcEnum) :
    (processesOf ps).length = min 8 (candidatesOf ps).length ∧
    (candidatesOf ps).length = (ps.filter fun p => p.rss.isSome).length ∧
    (processesOf ps).Sorted procGe ∧
    List.Perm (rankedOf ps) (candidatesOf ps) ∧
    (∀ v : Rat, (rankedOf ps).filter (mpIs v) = (candidatesOf ps).filter (mpIs v)) ∧
    processesOf ps = (rankedOf ps).take 8 := by
  refine ⟨?_, candidatesOf_length ps, ?_, List.perm_insertionSort procGe _,
          fun v => filter_insertionSort v _, rfl⟩
  · show ((rankedOf ps).take 8).length = _
    rw [List.length_take, rankedOf, List.length_insertionSort]
  · exact List.Pairwise.sublist (List.take_sublist 8 _)
      (List.sorted_insertionSort procGe (candidatesOf ps))

/-- Claim C4: for every partition enumeration, a partition whose usage
query raised is silently excluded (the disks list enumerates exactly the
partitions whose usage succeeded, in order, with no placeholder), and
the per-device I/O lookup only ever affects an entry's own optional I/O
fields: replacing the whole I/O table changes no entry's other fields
and removes no entry, and each entry's I/O fields are determined by the
table at its own device key alone. -/
theorem claim_C4 (env : DiskEnv) :
    (disksOf env).length = (env.partitions.filter fun p => p.usage.isSome).length ∧
    (disksOf env).map DiskEntry.device =
      (env.partitions.filter fun p => p.usage.isSome).map Partition.device ∧
    (∀ tbl1 tbl2 : Option (List (String × DiskIoCounters)),
        (disksOf { partitions := env.partitions, ioTable := tbl1 }).map dropIo =
          (disksOf { partitions := env.partitions, ioTable := tbl2 }).map dropIo) ∧
    ∀ e ∈ disksOf env,
      e.io = (env.ioTable.bind fun t => t.lookup (stripSlashes e.device)).map
               fun c => (fmtMB c.read_bytes, fmtMB c.write_bytes) := by
  obtain ⟨parts, tbl⟩ := env
  refine ⟨?_, ?_, ?_, ?_⟩
  · rw [disksOf_filter]; simp
  · rw [disksOf_filter]; rw [List.map_map]; rfl
  · intro tbl1 tbl2
    rw [disksOf_filter, disksOf_filter, List.map_map, List.map_map]
    rfl
  · intro e he
    rw [disksOf_filter] at he
    obtain ⟨p, _, rfl⟩ := List.mem_map.mp he
    rfl

/-- Witness for C4 at `denv`: the denied partition is skipped, and the
surviving entry's I/O fields are exactly the table lookup at its own
device key. -/
theorem claim_C4_witness :
    dEntryA ∈ disksOf denv ∧
    dEntryA.io = (denv.ioTable.bind fun t =>
        t.lookup (stripSlashes dEntryA.device)).map
        fun c => (fmtMB c.read_bytes, fmtMB c.write_bytes) :=
  ⟨List.mem_singleton_self _,
   (claim_C4 denv).2.2.2 dEntryA (List.mem_singleton_self _)⟩

/-- Claim C7 (amended): byte-scaled quantities are converted with
binary, 1024-based units; percentage fields are kept as the raw numbers
delivered by the OS both in the memory/disk records and in the process
candidate list — but memory and byte quantities are fixed to one decimal
place already by the collectors, as formatted strings stored in the
canonical in-memory model, not only in rendered text. -/
theorem claim_C7 (v : VMem) (s : Swap) (ps : List ProcEnum)
    (tbl : Option (List (String × DiskIoCounters))) (p : Partition)
    (u : DiskUsage) :
    (memoryOf v s).total_ram = fmt1ND (v.total : Int) (1024 ^ 3) ++ " GB" ∧
    (memoryOf v s).used_ram = fmt1ND (v.used : Int) (1024 ^ 3) ++ " GB" ∧
    (memoryOf v s).ram_percent = v.percent ∧
    (diskEntryOf tbl p u).percent = u.percent ∧
    (diskEntryOf tbl p u).total = fmt1ND (u.total : Int) (1024 ^ 3) ++ " GB" ∧
    (candidatesOf ps).map ProcEntry.memory_percent =
      (ps.filter fun q => q.rss.isSome).map ProcEnum.memory_percent :=
  ⟨rfl, rfl, rfl, rfl, rfl, candidatesOf_memPercent ps⟩

/-- Claim C7 counterexample: the fixing to one decimal place does *not*
happen only in rendered text — the collector already stores the rounded
string `"1.5 GB"` in the canonical in-memory model, so two memory states
with different raw totals yield identical `memory` sub-records. -/
theorem claim_C7_counterexample :
    memoryOf vmA swap0 = memoryOf vmB swap0 ∧ vmA.total ≠ vmB.total ∧
    (memoryOf vmA swap0).total_ram = "1.5 GB" :=
  ⟨rfl, by decide, rfl⟩

/-- Claim C5: for every well-formed Snapshot (a completed `collect()`
result, whatever degraded placeholders its fields contain), both
renderers are total: `text_report` performs all its dictionary accesses,
slicings and format-spec coercions without raising and returns exactly
the report text, and `json_report` likewise returns a (non-empty)
document. -/
theorem claim_C5 (t : String) (i : Info) :
    textReportE t (toVal i) = .ok (textReport t i) ∧ jsonReport i ≠ "" := by
  constructor
  · show platformLinesE (toVal i) >>= _ = _
    rw [platformLinesE_toVal, okBind, cpuLinesE_toVal, okBind, memLinesE_toVal,
        okBind, disksSectionE_toVal, okBind, networkSectionE_toVal, okBind,
        processesSectionE_toVal, okBind, usersSectionE_toVal, okBind]
    simp [getKey, toVal, toValEntries, List.lookup, textReport, reportLines,
          pyStr, List.append_assoc]
  · intro h
    have hl := congrArg String.length h
    simp [jsonReport, toVal, toValEntries, dumps, String.length_append] at hl
    exact absurd hl.1.1.1.1 (by decide)


/-! ## ASCII-escaping lemmas for the structured renderer -/

theorem hexDigit_ascii (n : Nat) : (hexDigit n).toNat < 128 := by
  unfold hexDigit
  split <;> decide

theorem hex4_ascii (n : Nat) : ∀ c ∈ (hex4 n).data, c.toNat < 128 := by
  intro c hc
  simp [hex4] at hc
  rcases hc with rfl | rfl | rfl | rfl <;> exact hexDigit_ascii _

set_option linter.unnecessarySeqFocus false in
theorem escChar_ascii (c : Char) : ∀ x ∈ (escChar c).data, x.toNat < 128 := by
  intro x hx
  unfold escChar at hx
  split_ifs at hx with h1 h2 h3 h4 h5 h6 h7 h8 h9
  · simp at hx; rcases hx with rfl | rfl <;> decide
  · simp at hx; rcases hx with rfl | rfl <;> decide
  · simp at hx; rcases hx with rfl | rfl <;> decide
  · simp at hx; rcases hx with rfl | rfl <;> decide
  · simp at hx; rcases hx with rfl | rfl <;> decide
  · simp at hx; rcases hx with rfl | rfl <;> decide
  · simp at hx; rcases hx with rfl | rfl <;> decide
  · simp at hx; subst hx; omega
  · rw [String.data_append] at hx
    rcases List.mem_append.mp hx with h | h
    · simp at h; rcases h with rfl | rfl <;> decide
    · exact hex4_ascii _ x h
  · rw [String.data_append, String.data_append, String.data_append] at hx
    rcases List.mem_append.mp hx with h | h
    · rcases List.mem_append.mp h with h' | h'
      · rcases List.mem_append.mp h' with h'' | h''
        · simp at h''; rcases h'' with rfl | rfl <;> decide
        · exact hex4_ascii _ x h''
      · simp at h'; rcases h' with rfl | rfl <;> decide
    · exact hex4_ascii _ x h

theorem escList_ascii (l : List Char) : ∀ x ∈ (escList l).data, x.toNat < 128 := by
  induction l with
  | nil => intro x hx; simp [escList] at hx
  | cons c cs ih =>
    intro x hx
    rw [escList, String.data_append] at hx
    rcases List.mem_append.mp hx with h | h
    · exact escChar_ascii c x h
    · exact ih x h

theorem encStr_ascii (s : String) : ∀ x ∈ (encStr s).data, x.toNat < 128 := by
  intro x hx
  rw [encStr, String.data_append, String.data_append] at hx
  rcases List.mem_append.mp hx with h | h
  · rcases List.mem_append.mp h with h' | h'
    · simp at h'; subst h'; decide
    · exact escList_ascii _ x h'
  · simp at h; subst h; decide

/-- Claim C6 (amended): the structured renderer pretty-prints with
2-space-per-level indentation and serializes non-JSON scalars via their
`str()` form — but non-ASCII text is *not* preserved verbatim: with
`json.dumps`'s default `ensure_ascii=True`, every string is emitted as a
purely ASCII escape sequence. -/
theorem claim_C6 :
    (∀ s : String, ∀ c ∈ (encStr s).data, c.toNat < 128) ∧
    (∀ (s : String) (d : Nat),
        dumps (Val.str s) d = encStr s ∧ dumps (Val.other s) d = encStr s) ∧
    (∀ (k : String) (v : Val) (kvs : List (String × Val)) (d : Nat),
        ∃ rest, dumps (Val.dict ((k, v) :: kvs)) d =
          "\x7b\n" ++ (indentStr (d + 1) ++ rest)) := by
  refine ⟨fun s => encStr_ascii s, fun s d => ⟨rfl, rfl⟩, ?_⟩
  intro k v kvs d
  cases kvs with
  | nil =>
    exact ⟨encStr k ++ ": " ++ dumps v (d + 1) ++ "\n" ++ indentStr d ++ "\x7d",
      by simp [dumps, dumpsEntries, String.append_assoc]⟩
  | cons kv2 rest =>
    exact ⟨encStr k ++ ": " ++ dumps v (d + 1) ++ ",\n" ++
             dumpsEntries (kv2 :: rest) (d + 1) ++ "\n" ++ indentStr d ++ "\x7d",
      by simp [dumps, dumpsEntries, String.append_assoc]⟩

/-- Witness for C6 at concrete inputs. -/
theorem claim_C6_witness :
    ('"'.toNat < 128) ∧
    dumps (Val.str "x") 3 = encStr "x" ∧
    (∃ rest, dumps (Val.dict [("a", Val.int 0)]) 0 =
      "\x7b\n" ++ (indentStr 1 ++ rest)) :=
  ⟨claim_C6.1 "a" '"' (by decide), (claim_C6.2.1 "x" 3).1,
   claim_C6.2.2 "a" (Val.int 0) [] 0⟩

set_option maxRecDepth 100000

/-- Claim C6 counterexample: the Cyrillic process name is *not*
preserved verbatim in the structured output — the character `п` does not
occur anywhere in the serialized document, while its `п` escape
does. -/
theorem claim_C6_counterexample :
    containsL (jsonReport infoCyr).data "п".data = false ∧
    containsL (jsonReport infoCyr).data "\\u043f".data = true :=
  ⟨by decide, by decide⟩

/-! ## Substring containment in the structured output -/

theorem strContains_refl (s : String) : strContains s s :=
  ⟨[], [], by simp⟩

theorem strContains_append_left (s : String) {t u : String}
    (h : strContains t u) : strContains (s ++ t) u := by
  obtain ⟨a, b, hab⟩ := h
  exact ⟨s.data ++ a, b, by simp [String.data_append, hab]⟩

theorem strContains_append_right {t u : String} (h : strContains t u)
    (s : String) : strContains (t ++ s) u := by
  obtain ⟨a, b, hab⟩ := h
  exact ⟨a, b ++ s.data, by simp [String.data_append, hab]⟩

theorem strContains_trans {s t u : String} (h1 : strContains s t)
    (h2 : strContains t u) : strContains s u := by
  obtain ⟨a, b, hab⟩ := h1
  obtain ⟨c, d, hcd⟩ := h2
  exact ⟨a ++ c, d ++ b, by simp [hab, hcd]⟩

theorem dumpsEntries_cons (k : String) (v : Val) (kvs : List (String × Val))
    (d : Nat) :
    dumpsEntries ((k, v) :: kvs) d =
      indentStr d ++ encStr k ++ ": " ++ dumps v d ++
        (if kvs.isEmpty then "" else ",\n" ++ dumpsEntries kvs d) := by
  cases kvs with
  | nil => simp [dumpsEntries]
  | cons kv2 rest => simp [dumpsEntries, String.append_assoc]

theorem entries_key_contains {k : String} {v : Val}
    {kvs : List (String × Val)} (h : (k, v) ∈ kvs) (d : Nat) :
    strContains (dumpsEntries kvs d) (encStr k) := by
  induction kvs with
  | nil => cases h
  | cons kv rest ih =>
    obtain ⟨k2, v2⟩ := kv
    rcases List.mem_cons.mp h with heq | hmem
    · injection heq with hk hv
      subst hk; subst hv
      rw [dumpsEntries_cons]
      exact strContains_append_right (strContains_append_right
        (strContains_append_right
          (strContains_append_left _ (strContains_refl _)) _) _) _
    · cases rest with
      | nil => cases hmem
      | cons kv2 r2 =>
        rw [dumpsEntries_cons]
        simp only [List.isEmpty_cons, if_neg]
        exact strContains_append_left _
          (strContains_append_left _ (ih hmem))

theorem entries_val_contains {k : String} {v : Val}
    {kvs : List (String × Val)} (h : (k, v) ∈ kvs) (d : Nat) :
    strContains (dumpsEntries kvs d) (dumps v d) := by
  induction kvs with
  | nil => cases h
  | cons kv rest ih =>
    obtain ⟨k2, v2⟩ := kv
    rcases List.mem_cons.mp h with heq | hmem
    · injection heq with hk hv
      subst hk; subst hv
      rw [dumpsEntries_cons]
      exact strContains_append_right
        (strContains_append_left _ (strContains_refl _)) _
    · cases rest with
      | nil => cases hmem
      | cons kv2 r2 =>
        rw [dumpsEntries_cons]
        simp only [List.isEmpty_cons, if_neg]
        exact strContains_append_left _
          (strContains_append_left _ (ih hmem))

theorem dict_key_contains {k : String} {v : Val} {kvs : List (String × Val)}
    (h : (k, v) ∈ kvs) (d : Nat) :
    strContains (dumps (Val.dict kvs) d) (encStr k) := by
  cases kvs with
  | nil => cases h
  | cons kv rest =>
    show strContains ("\x7b\n" ++ dumpsEntries (kv :: rest) (d + 1) ++ "\n" ++
      indentStr d ++ "\x7d") (encStr k)
    exact strContains_append_right (strContains_append_right
      (strContains_append_right
        (strContains_append_left _ (entries_key_contains h (d + 1))) _) _) _

theorem dict_val_contains {k : String} {v : Val} {kvs : List (String × Val)}
    (h : (k, v) ∈ kvs) (d : Nat) :
    strContains (dumps (Val.dict kvs) d) (dumps v (d + 1)) := by
  cases kvs with
  | nil => cases h
  | cons kv rest =>
    show strContains ("\x7b\n" ++ dumpsEntries (kv :: rest) (d + 1) ++ "\n" ++
      indentStr d ++ "\x7d") (dumps v (d + 1))
    exact strContains_append_right (strContains_append_right
      (strContains_append_right
        (strContains_append_left _ (entries_val_contains h (d + 1))) _) _) _

/-- Claim C10: a network interface with an empty collected address list
is omitted from the text report's interfaces section entirely — it
contributes no lines (no MAC, no status), and deleting it from the
snapshot leaves the whole text report unchanged — even though `_network`
keeps every enumerated interface in the Snapshot and its name still
appears (as a quoted key) in the structured output; interfaces that are
shown display at most their first two addresses. -/
theorem claim_C10 (i : Info) (t nm : String) (ii : IfaceInfo) (e : NetEnv)
    (l1 l2 : List (String × IfaceInfo)) :
    (ii.ip_addresses = [] → ifaceLines nm ii = []) ∧
    (ii.ip_addresses = [] →
      reportLines t { i with network := { i.network with
          interfaces := l1 ++ (nm, ii) :: l2 } } =
        reportLines t { i with network := { i.network with
          interfaces := l1 ++ l2 } }) ∧
    (networkOf e).interfaces.map Prod.fst = e.if_addrs.map Prod.fst ∧
    ((nm, ii) ∈ i.network.interfaces → strContains (jsonReport i) (encStr nm)) ∧
    (ii.ip_addresses ≠ [] →
      ifaceLines nm ii =
        ["\n" ++ nm ++ ":"] ++
        (match ii.mac with
         | some m => if m.isEmpty then [] else ["  MAC: " ++ m]
         | none => []) ++
        (ii.ip_addresses.take 2).map (fun ip => "  " ++ ip) ++
        (match ii.stats with
         | some st =>
           ["  Статус: " ++ st.is_up ++ ", " ++ "Скорость: " ++ st.speed]
         | none => [])) := by
  refine ⟨?_, ?_, ?_, ?_, ?_⟩
  · intro h; simp [ifaceLines, h]
  · intro h
    simp [reportLines, List.flatMap_append, ifaceLines, h]
  · simp [networkOf, List.map_map]
  · intro hmem
    exact strContains_trans
      (strContains_trans
        (dict_val_contains
          (show ("network", netVal i.network) ∈ toValEntries i by
            simp [toValEntries]) 0)
        (dict_val_contains
          (show ("interfaces",
              Val.dict (i.network.interfaces.map fun p => (p.1, ifaceVal p.2))) ∈
            netValEntries i.network by simp [netValEntries]) 1))
      (dict_key_contains
        (show (nm, ifaceVal ii) ∈
            i.network.interfaces.map (fun p => (p.1, ifaceVal p.2)) from
          List.mem_map_of_mem _ hmem) 2)
  · intro h
    cases hip : ii.ip_addresses with
    | nil => exact absurd hip h
    | cons a rest => simp [ifaceLines, hip]

/-- Witness for C10 at a concrete snapshot with one address-less
interface. -/
theorem claim_C10_witness :
    ifaceLines "lo" iEmpty = [] ∧
    strContains (jsonReport infoIface) (encStr "lo") :=
  ⟨(claim_C10 infoIface "" "lo" iEmpty
      { io := { bytes_sent := 0, bytes_recv := 0, packets_sent := 0,
                packets_recv := 0 }, if_addrs := [], if_stats := [] }
      [] []).1 rfl,
   (claim_C10 infoIface "" "lo" iEmpty
      { io := { bytes_sent := 0, bytes_recv := 0, packets_sent := 0,
                packets_recv := 0 }, if_addrs := [], if_stats := [] }
      [] []).2.2.2.1 (List.mem_singleton_self _)⟩
